import Mathlib

/-!
Shallow embedding of the jelly_kodi_sync repository for specification checking.

The embedding covers:
* the tick/second conversions of `jelly_util.py` (`seconds_to_ticks`,
  `ticks_to_seconds`), with Python floats modelled as rationals and
  Python `int(...)` truncation modelled by `pyInt`;
* path unification (`get_root_file_path` in `jelly_util.py` / `kodi_util.py`,
  `convert_windows_to_unix_path` in `utils.py`), with the compiled regex
  abstracted as a function returning the list of capture groups;
* the two Mongo mirror passes (`sync_db` in `jelly_util.py` and
  `kodi_util.py`), with a Mongo collection modelled as a list of documents,
  `UpdateOne(filter, {"$set": item}, upsert=True)` modelled as an update of the
  first key-matching document using field-level `$set` merge semantics, and
  `delete_many` over ids modelled as a filter;
* the fetch phases `jelly_pull` / `kodi_pull`, with the network fetches
  abstracted as `Except`-valued inputs (an exception raised during the fetch
  propagates before any store operation, returning the store unchanged);
* the watch-state reconcilers (`sync_watch_status_to_jelly_from_kodi` in
  `jelly_util.py`, `sync_watch_status_in_kodi_from_jelly` in `kodi_util.py`)
  and the two directional drivers of `sync_jelly_kodi.py`, with a Python
  `KeyError` on a missing dictionary key modelled by `Except.error` and the
  network side effects reified as action values.
-/

/-- Environment configuration consumed by the reconcilers.  `dry_run` models
the `DRY_RUN` environment flag read in `jelly_util.py`. -/
structure Config where
  dry_run : Bool
deriving DecidableEq

/-! ## Tick conversions (`jelly_util.py`) -/

/-- Python `int(q)` for a rational: truncation toward zero. -/
def pyInt (q : ℚ) : ℤ :=
  if 0 ≤ q then ⌊q⌋ else ⌈q⌉

/-- `seconds_to_ticks` from `jelly_util.py`: `int(seconds * 10_000_000)`. -/
def seconds_to_ticks (seconds : ℚ) : ℤ :=
  pyInt (seconds * 10000000)

/-- `ticks_to_seconds` from `jelly_util.py`: `ticks / 10_000_000`
(Python true division, exact on our rational model). -/
def ticks_to_seconds (ticks : ℤ) : ℚ :=
  (ticks : ℚ) / 10000000

/-! ## Path unification (`utils.py`, `get_root_file_path`) -/

/-- `convert_windows_to_unix_path` from `utils.py`:
`path.replace("\\", "/")`.  The pattern is a single character, so the
replacement is a character map. -/
def convert_windows_to_unix_path (path : String) : String :=
  String.mk (path.data.map (fun c => if c = '\\' then '/' else c))

/-- `get_root_file_path` from `jelly_util.py` / `kodi_util.py`, parameterised
by the compiled mount pattern.  `pat_match path` models `pat.match(path)`:
`none` when the regex does not match, `some groups` with the list of capture
groups (`match.groups()`) otherwise.  On a match with exactly 3 groups the
result is `(groups[1], convert_windows_to_unix_path(groups[2]))`; any other
outcome returns `(None, None)` after logging. -/
def get_root_file_path (pat_match : String → Option (List String)) (path : String) :
    Option String × Option String :=
  match pat_match path with
  | none => (none, none)
  | some groups =>
    match groups with
    | [_, g1, g2] => (some g1, some (convert_windows_to_unix_path g2))
    | _ => (none, none)

/-- Strip a literal character prefix, returning the remainder on success. -/
def stripPrefixChars : List Char → List Char → Option (List Char)
  | [], cs => some cs
  | _ :: _, [] => none
  | p :: ps, c :: cs => if c = p then stripPrefixChars ps cs else none

/-- A path separator in the example mount pattern: `[\\/]`. -/
def isPathSep (c : Char) : Bool :=
  c = '\\' || c = '/'

/-- The root-folder alternation `(RIP|TRANSCODED|EPISODIC)` of the example
mount pattern. -/
def tryRoots (cs : List Char) : Option (String × List Char) :=
  match stripPrefixChars "RIP".data cs with
  | some r => some ("RIP", r)
  | none =>
    match stripPrefixChars "TRANSCODED".data cs with
    | some r => some ("TRANSCODED", r)
    | none =>
      match stripPrefixChars "EPISODIC".data cs with
      | some r => some ("EPISODIC", r)
      | none => none

/-- The spec's example mount pattern, adjusted to 3 capture groups:
`^(M:)[\\/](RIP|TRANSCODED|EPISODIC)[\\/](.*)$`.  Returns the list of capture
groups on a match. -/
def exampleMountPat (path : String) : Option (List String) :=
  match stripPrefixChars "M:".data path.data with
  | none => none
  | some rest1 =>
    match rest1 with
    | [] => none
    | c :: rest2 =>
      if isPathSep c then
        match tryRoots rest2 with
        | none => none
        | some (root, rest3) =>
          match rest3 with
          | [] => none
          | d :: rest4 =>
            if isPathSep d then some ["M:", root, String.mk rest4] else none
      else none

/-! ## Mongo documents and the `$set` upsert (`sync_db`) -/

/-- A document field: name and value. -/
abbrev DocField := String × String

/-- Dictionary lookup of a field by name (first occurrence). -/
def getField : List DocField → String → Option String
  | [], _ => none
  | p :: ps, f => if p.1 = f then some p.2 else getField ps f

/-- Set one field: replace the first occurrence, else append. -/
def setField : List DocField → String → String → List DocField
  | [], k, v => [(k, v)]
  | p :: ps, k, v => if p.1 = k then (k, v) :: ps else p :: setField ps k v

/-- Mongo `$set` of all fields of `new` onto `stored`: every field of `new`
is written; fields present only in `stored` are left in place. -/
def setAll (stored new : List DocField) : List DocField :=
  new.foldl (fun acc p => setField acc p.1 p.2) stored

/-- A document in the Jellyfin mirror collection: the key fields `Id` and
`UserId` (always present in a fetched item) plus the remaining fields. -/
structure JItem where
  Id : String
  UserId : String
  rest : List DocField
deriving DecidableEq

/-- The `(ScopeId, NativeId)` key of a stored Jellyfin document, as the pair
`(UserId, Id)` used in the `UpdateOne` filter of `jelly_util.sync_db`. -/
def dkey (i : JItem) : String × String :=
  (i.UserId, i.Id)

/-- The string key `f"{UserId}_{Id}"` built in `jelly_pull` and used by the
delete step of `jelly_util.sync_db`. -/
def jellyConcatKey (i : JItem) : String :=
  i.UserId ++ "_" ++ i.Id

/-- The effect of `UpdateOne({"Id":…,"UserId":…}, {"$set": item})` on a
matched document: the filter fields keep their (equal) values and every field
of `item` is `$set` onto the stored document. -/
def mergeSet (stored new : JItem) : JItem :=
  { Id := new.Id, UserId := new.UserId, rest := setAll stored.rest new.rest }

/-- A document in the Kodi mirror collection: the `uniqueid` key plus the
remaining fields. -/
structure KItem where
  uniqueid : ℕ
  rest : List DocField
deriving DecidableEq

/-- `$set` merge for a Kodi document matched on `uniqueid`. -/
def kodiMergeSet (stored new : KItem) : KItem :=
  { uniqueid := new.uniqueid, rest := setAll stored.rest new.rest }

section StoreModel

variable {α : Type} {κ : Type} {σ : Type} [DecidableEq κ] [DecidableEq σ]

/-- Mongo `UpdateOne(filter, {"$set": item}, upsert=True)`: update the first
document matching the key, or insert the item when none matches. -/
def upsertFirst (key : α → κ) (merge : α → α → α) : List α → α → List α
  | [], item => [item]
  | d :: ds, item =>
    if key d = key item then merge d item :: ds
    else d :: upsertFirst key merge ds item

/-- The `bulk_write` of one `UpdateOne` per fetched item, in fetch order. -/
def bulk_upsert (key : α → κ) (merge : α → α → α) (store items : List α) : List α :=
  items.foldl (upsertFirst key merge) store

/-- The body of `sync_db` (both `jelly_util.py` and `kodi_util.py`):
bulk-upsert all fetched items, then delete every stored document whose string
key `skey` is not among the fetched ids. -/
def sync_db_model (key : α → κ) (merge : α → α → α) (skey : α → σ)
    (store items : List α) (ids : List σ) : List α :=
  (bulk_upsert key merge store items).filter (fun d => ids.contains (skey d))

end StoreModel

/-- `sync_db` from `jelly_util.py`: upsert keyed on `(Id, UserId)`, delete
stale documents by membership of `f"{UserId}_{Id}"` in `jellyfin_item_ids`. -/
def jelly_sync_db (store all_users_items : List JItem) (jellyfin_item_ids : List String) :
    List JItem :=
  sync_db_model dkey mergeSet jellyConcatKey store all_users_items jellyfin_item_ids

/-- `sync_db` from `kodi_util.py`: upsert keyed on `uniqueid`, delete stale
documents by membership of `uniqueid` in `kodi_item_ids`. -/
def kodi_sync_db (store all_items : List KItem) (kodi_item_ids : List ℕ) : List KItem :=
  sync_db_model KItem.uniqueid kodiMergeSet KItem.uniqueid store all_items kodi_item_ids

/-! ## The pull phases (`jelly_pull`, `kodi_pull`) -/

/-- `jelly_pull` from `jelly_util.py` with the network abstracted:
`fetch_users` models `get_users` and `fetch_user_items u` models the per-user
`/Users/{u}/Items` request (both `raise_for_status`, i.e. may raise).  The
store is only touched by the final `sync_db` call; an exception raised during
any fetch propagates first, so the function returns the store unchanged
together with the error. -/
def jelly_pull (fetch_users : Except String (List String))
    (fetch_user_items : String → Except String (List JItem))
    (store : List JItem) : List JItem × Option String :=
  match fetch_users with
  | Except.error e => (store, some e)
  | Except.ok users =>
    match users.foldlM (fun acc u => (fetch_user_items u).map (fun items => acc ++ items))
        ([] : List JItem) with
    | Except.error e => (store, some e)
    | Except.ok all_users_items =>
      (jelly_sync_db store all_users_items (all_users_items.map jellyConcatKey), none)

/-- `kodi_pull` from `kodi_util.py` with the RPC fetches abstracted:
`fetch_movies` models `kodi_fetch_all_movies` and `fetch_episodes` models
`kodi_fetch_all_tv_shows`.  `sync_db` runs only after both fetches succeed. -/
def kodi_pull (fetch_movies : Except String (List KItem))
    (fetch_episodes : Except String (List KItem))
    (store : List KItem) : List KItem × Option String :=
  match fetch_movies with
  | Except.error e => (store, some e)
  | Except.ok all_movies =>
    match fetch_episodes with
    | Except.error e => (store, some e)
    | Except.ok all_tv_shows =>
      let all_items := all_movies ++ all_tv_shows
      (kodi_sync_db store all_items (all_items.map KItem.uniqueid), none)

/-! ## Reconciler items and actions -/

/-- A watched Jellyfin item as read back from Mongo.  `Name`, `Id`, `UserId`
are always present.  `PlayCount` and `PlaybackPositionTicks` are `none` when
the field (or the whole `UserData` sub-document) is missing.  `unified_file`
is `none` when the field is absent from the document (the item had no
`Path`), `some none` when it was stored as Python `None` (path did not
match), and `some (some s)` when a unified path was stored. -/
structure JellyItem where
  Name : String
  Id : String
  UserId : String
  PlayCount : Option ℕ
  PlaybackPositionTicks : Option ℤ
  unified_file : Option (Option String)
deriving DecidableEq

/-- A watched Kodi item as read back from Mongo.  `playcount` and
`resume_position` (`resume.position`) are `none` when missing.
`unified_file` is `none` when stored as Python `None` (or absent),
`some s` otherwise.  `movieid` / `episodeid` / `tvshowid` are `none` when the
corresponding field is absent. -/
structure KodiItem where
  title : String
  playcount : Option ℕ
  resume_position : Option ℚ
  unified_file : Option String
  movieid : Option ℕ
  episodeid : Option ℕ
  tvshowid : Option ℕ
deriving DecidableEq

/-- Python `d["k"]`: the value when present, a `KeyError` otherwise. -/
def expectField {β : Type} (name : String) : Option β → Except String β
  | some v => Except.ok v
  | none => Except.error ("KeyError: " ++ name)

/-- The observable outcome of `sync_watch_status_to_jelly_from_kodi`:
either the skip branch, the `update_playback_position` network call with its
arguments, or the dry-run log line. -/
inductive JellyAction where
  | skip
  | update_playback_position (user_id : String) (item_id : String)
      (position_ticks : ℤ) (play_count : ℕ)
  | dryRunLog (name : String)
deriving DecidableEq

/-- The observable outcome of `sync_watch_status_in_kodi_from_jelly`:
the skip branch, one of the two Kodi RPC update calls with their arguments,
or the unknown-item-type log branch. -/
inductive KodiAction where
  | skip
  | setEpisodeDetails (episodeid : ℕ) (playcount : ℕ) (position : ℚ)
  | setMovieDetails (movieid : ℕ) (playcount : ℕ) (position : ℚ)
  | unknownType
deriving DecidableEq

/-- `sync_watch_status_to_jelly_from_kodi` from `jelly_util.py`.  All reads
use `.get` with default `0`, so missing fields never raise.  The skip test is
`kodi_playcount == jelly_playcount and position_diff_seconds < 2`; otherwise
the update call is issued unless `DRY_RUN` is set, in which case only the
intent is logged. -/
def sync_watch_status_to_jelly_from_kodi (cfg : Config) (kodi_item : KodiItem)
    (jelly_item : JellyItem) : JellyAction :=
  let kodi_playcount := kodi_item.playcount.getD 0
  let kodi_resume_seconds := kodi_item.resume_position.getD 0
  let jelly_playcount := jelly_item.PlayCount.getD 0
  let jelly_resume_ticks := jelly_item.PlaybackPositionTicks.getD 0
  let new_position_ticks := seconds_to_ticks kodi_resume_seconds
  let position_diff_seconds := |kodi_resume_seconds - ticks_to_seconds jelly_resume_ticks|
  if kodi_playcount = jelly_playcount ∧ position_diff_seconds < 2 then
    JellyAction.skip
  else if ¬ cfg.dry_run then
    JellyAction.update_playback_position jelly_item.UserId jelly_item.Id
      new_position_ticks kodi_playcount
  else
    JellyAction.dryRunLog jelly_item.Name

/-- `sync_watch_status_in_kodi_from_jelly` from `kodi_util.py`.  Field reads
are direct subscripts (`KeyError` when missing, modelled as `Except.error`),
the skip test threshold is `< 1` second, Python `and` short-circuits (the
resume position of the Kodi item is only read when the play counts are
equal), and — unlike the Jellyfin direction — the function never consults the
`DRY_RUN` flag: `cfg` is accepted but not read, matching the source. -/
def sync_watch_status_in_kodi_from_jelly (cfg : Config) (jelly_item : JellyItem)
    (kodi_item : KodiItem) : Except String KodiAction :=
  match expectField "PlaybackPositionTicks" jelly_item.PlaybackPositionTicks with
  | Except.error e => Except.error e
  | Except.ok resume_position =>
    match expectField "PlayCount" jelly_item.PlayCount with
    | Except.error e => Except.error e
    | Except.ok playcount =>
      let resume_position_in_seconds := ticks_to_seconds resume_position
      match expectField "playcount" kodi_item.playcount with
      | Except.error e => Except.error e
      | Except.ok kodi_playcount =>
        let in_sync_result : Except String Bool :=
          if kodi_playcount = playcount then
            match expectField "resume.position" kodi_item.resume_position with
            | Except.error e => Except.error e
            | Except.ok kodi_position =>
              Except.ok (decide (|kodi_position - resume_position_in_seconds| < 1))
          else Except.ok false
        match in_sync_result with
        | Except.error e => Except.error e
        | Except.ok in_sync =>
          if in_sync then
            Except.ok KodiAction.skip
          else if kodi_item.tvshowid.isSome then
            match expectField "episodeid" kodi_item.episodeid with
            | Except.error e => Except.error e
            | Except.ok episode_id =>
              Except.ok (KodiAction.setEpisodeDetails episode_id playcount
                resume_position_in_seconds)
          else if kodi_item.movieid.isSome then
            match expectField "movieid" kodi_item.movieid with
            | Except.error e => Except.error e
            | Except.ok movie_id =>
              Except.ok (KodiAction.setMovieDetails movie_id playcount
                resume_position_in_seconds)
          else
            Except.ok KodiAction.unknownType

/-! ## Directional reconciliation drivers (`sync_jelly_kodi.py`) -/

/-- The loop body of `set_watch_from_jelly_to_kodi`: read
`item["unified_file"]` (a `KeyError` when the field is absent), query the
Kodi collection for documents whose `unified_file` equals it, then:
more than one match — count it and log only (no update call); exactly one
match — count it and run the Kodi-side sync; no match — log only.
`acc` is `(found_counter, actions issued so far)`. -/
def jellyToKodiStep (cfg : Config) (mongo_collection : List KodiItem)
    (acc : ℕ × List KodiAction) (item : JellyItem) : Except String (ℕ × List KodiAction) :=
  match expectField "unified_file" item.unified_file with
  | Except.error e => Except.error e
  | Except.ok file_location =>
    match mongo_collection.filter (fun k => k.unified_file == file_location) with
    | _ :: _ :: _ => Except.ok (acc.1 + 1, acc.2)
    | [found_item] =>
      match sync_watch_status_in_kodi_from_jelly cfg item found_item with
      | Except.error e => Except.error e
      | Except.ok a => Except.ok (acc.1 + 1, acc.2 ++ [a])
    | [] => Except.ok acc

/-- `set_watch_from_jelly_to_kodi` from `sync_jelly_kodi.py`: fold the step
over the watched Jellyfin items.  A raised `KeyError` aborts the whole
loop (modelled by `Except`). -/
def set_watch_from_jelly_to_kodi (cfg : Config) (jelly_watched_items : List JellyItem)
    (mongo_collection : List KodiItem) : Except String (ℕ × List KodiAction) :=
  jelly_watched_items.foldlM (jellyToKodiStep cfg mongo_collection) (0, [])

/-- The loop body of `set_watch_from_kodi_to_jelly`: read
`item.get("unified_file")` and skip (continue) when it is falsy (absent,
`None`, or the empty string); otherwise query the Jellyfin collection for
documents whose `unified_file` equals it and sync every match, adding the
number of matches to `found_counter`. -/
def kodiToJellyStep (cfg : Config) (mongo_collection : List JellyItem)
    (acc : ℕ × List JellyAction) (item : KodiItem) : ℕ × List JellyAction :=
  match item.unified_file with
  | none => acc
  | some file_location =>
    if file_location = "" then acc
    else
      let found_items := mongo_collection.filter
        (fun j => j.unified_file == some (some file_location))
      if found_items.isEmpty then acc
      else
        (acc.1 + found_items.length,
         acc.2 ++ found_items.map (fun f => sync_watch_status_to_jelly_from_kodi cfg item f))

/-- `set_watch_from_kodi_to_jelly` from `sync_jelly_kodi.py`: fold the step
over the watched Kodi items.  The loop body never raises. -/
def set_watch_from_kodi_to_jelly (cfg : Config) (kodi_watched_items : List KodiItem)
    (mongo_collection : List JellyItem) : ℕ × List JellyAction :=
  kodi_watched_items.foldl (kodiToJellyStep cfg mongo_collection) (0, [])

/-! ## Theorems -/

/-- Claim C8: the tick/second conversions use exactly 10,000,000 ticks per
second: for every non-negative seconds value `s`,
`ticks_to_seconds (seconds_to_ticks s)` equals `s` up to floating rounding
(the truncation error lies in `[0, 1/10_000_000)`), and concretely
`seconds_to_ticks 5415.5 = 54_155_000_000` and
`seconds_to_ticks 5555 = 55_550_000_000`. -/
theorem c8_theorem :
    (∀ s : ℚ, 0 ≤ s →
      0 ≤ s - ticks_to_seconds (seconds_to_ticks s) ∧
      s - ticks_to_seconds (seconds_to_ticks s) < 1 / 10000000) ∧
    seconds_to_ticks (10831 / 2) = 54155000000 ∧
    seconds_to_ticks 5555 = 55550000000 := by
  refine ⟨?_, ?_, ?_⟩
  case refine_2 =>
    have h : ((10831 : ℚ) / 2) * 10000000 = ((54155000000 : ℤ) : ℚ) := by norm_num
    rw [seconds_to_ticks, pyInt, h]
    norm_num
  case refine_3 =>
    have h : (5555 : ℚ) * 10000000 = ((55550000000 : ℤ) : ℚ) := by norm_num
    rw [seconds_to_ticks, pyInt, h]
    norm_num
  intro s hs
  have hx : 0 ≤ s * 10000000 := by positivity
  have hfloor : seconds_to_ticks s = ⌊s * 10000000⌋ := by
    simp [seconds_to_ticks, pyInt, hx]
  have h1 : (⌊s * 10000000⌋ : ℚ) ≤ s * 10000000 := Int.floor_le _
  have h2 : s * 10000000 < ⌊s * 10000000⌋ + 1 := Int.lt_floor_add_one _
  rw [hfloor]
  unfold ticks_to_seconds
  constructor
  · rw [sub_nonneg, div_le_iff (by norm_num : (0 : ℚ) < 10000000)]
    linarith
  · rw [sub_lt_iff_lt_add]
    have hsum : (1 : ℚ) / 10000000 + (⌊s * 10000000⌋ : ℚ) / 10000000 =
        ((⌊s * 10000000⌋ : ℚ) + 1) / 10000000 := by ring
    rw [hsum, lt_div_iff (by norm_num : (0 : ℚ) < 10000000)]
    linarith

/-- Witness for C8 at the concrete input `s = 1/2`. -/
theorem c8_witness :
    0 ≤ (1 / 2 : ℚ) - ticks_to_seconds (seconds_to_ticks (1 / 2)) ∧
    (1 / 2 : ℚ) - ticks_to_seconds (seconds_to_ticks (1 / 2)) < 1 / 10000000 :=
  c8_theorem.1 (1 / 2) (by norm_num)

/-- Claim C9: a mirror pass whose catalog fetch fails aborts before issuing
any upsert or delete against the store: whenever `jelly_pull` / `kodi_pull`
reports an error, the returned store equals the prior store. -/
theorem c9_theorem :
    (∀ (fetch_users : Except String (List String))
        (fetch_user_items : String → Except String (List JItem))
        (store : List JItem) (e : String),
      (jelly_pull fetch_users fetch_user_items store).2 = some e →
      (jelly_pull fetch_users fetch_user_items store).1 = store) ∧
    (∀ (fetch_movies fetch_episodes : Except String (List KItem))
        (store : List KItem) (e : String),
      (kodi_pull fetch_movies fetch_episodes store).2 = some e →
      (kodi_pull fetch_movies fetch_episodes store).1 = store) := by
  constructor
  · intro fu fi store e h
    cases fu with
    | error e2 => simp [jelly_pull]
    | ok users =>
      simp only [jelly_pull] at h ⊢
      cases hfold : users.foldlM
          (fun acc u => (fi u).map (fun items => acc ++ items)) ([] : List JItem) with
      | error e2 => rfl
      | ok all =>
        rw [hfold] at h
        simp at h
  · intro fm fe store e h
    cases fm with
    | error e2 => simp [kodi_pull]
    | ok movies =>
      cases fe with
      | error e2 => simp [kodi_pull]
      | ok episodes => simp [kodi_pull] at h

/-- Witness for C9: a failed fetch at a concrete prior store. -/
theorem c9_witness :
    (jelly_pull (Except.error "network") (fun _ => Except.ok [])
        [⟨"1", "u", [("Name", "x")]⟩]).1 = [⟨"1", "u", [("Name", "x")]⟩] ∧
    (kodi_pull (Except.error "network") (Except.ok []) [⟨1, [("title", "x")]⟩]).1 =
      [⟨1, [("title", "x")]⟩] :=
  ⟨c9_theorem.1 (Except.error "network") (fun _ => Except.ok [])
      [⟨"1", "u", [("Name", "x")]⟩] "network" rfl,
   c9_theorem.2 (Except.error "network") (Except.ok []) [⟨1, [("title", "x")]⟩] "network" rfl⟩

/-- Claim C10: in the Kodi-to-Jellyfin push, a watched Kodi item lacking
`playcount` or `resume.position` is treated as having 0 for the missing
value: the outcome of `sync_watch_status_to_jelly_from_kodi` on the item with
the missing field equals the outcome on the item with an explicit 0, and a
resume position of 0 converts to 0 position ticks. -/
theorem c10_theorem :
    (∀ (cfg : Config) (k : KodiItem) (j : JellyItem),
      sync_watch_status_to_jelly_from_kodi cfg { k with playcount := none } j =
        sync_watch_status_to_jelly_from_kodi cfg { k with playcount := some 0 } j) ∧
    (∀ (cfg : Config) (k : KodiItem) (j : JellyItem),
      sync_watch_status_to_jelly_from_kodi cfg { k with resume_position := none } j =
        sync_watch_status_to_jelly_from_kodi cfg { k with resume_position := some 0 } j) ∧
    seconds_to_ticks 0 = 0 := by
  refine ⟨fun cfg k j => rfl, fun cfg k j => rfl, ?_⟩
  have h : (0 : ℚ) * 10000000 = ((0 : ℤ) : ℚ) := by norm_num
  rw [seconds_to_ticks, pyInt, h]
  norm_num

/-- Claim C7: path unification.  For every matcher and path: a match with
exactly 3 capture groups returns the second group as the root and the third
group with backslashes replaced by forward slashes as the unified path; no
match, or a match with a group count other than 3, returns `(None, None)`.
Concretely, under the spec's example pattern,
`M:\RIP\Movies\Foo (2020)\foo.mkv` yields `(RIP, Movies/Foo (2020)/foo.mkv)`
and `/mnt/other/foo.mkv` yields no match. -/
theorem c7_theorem :
    (∀ (pat_match : String → Option (List String)) (path g0 g1 g2 : String),
      pat_match path = some [g0, g1, g2] →
      get_root_file_path pat_match path =
        (some g1, some (convert_windows_to_unix_path g2))) ∧
    (∀ (pat_match : String → Option (List String)) (path : String),
      pat_match path = none → get_root_file_path pat_match path = (none, none)) ∧
    (∀ (pat_match : String → Option (List String)) (path : String) (groups : List String),
      pat_match path = some groups → groups.length ≠ 3 →
      get_root_file_path pat_match path = (none, none)) ∧
    get_root_file_path exampleMountPat "M:\\RIP\\Movies\\Foo (2020)\\foo.mkv" =
      (some "RIP", some "Movies/Foo (2020)/foo.mkv") ∧
    get_root_file_path exampleMountPat "/mnt/other/foo.mkv" = (none, none) := by
  refine ⟨?_, ?_, ?_, ?_, ?_⟩
  · intro m path g0 g1 g2 h
    simp [get_root_file_path, h]
  · intro m path h
    simp [get_root_file_path, h]
  · intro m path gs h hlen
    simp only [get_root_file_path, h]
    match gs with
    | [] => rfl
    | [a] => rfl
    | [a, b] => rfl
    | [a, b, c] => exact absurd rfl hlen
    | a :: b :: c :: d :: rest => rfl
  · decide
  · decide

/-- Witness for C7: the general contract applied at a concrete matcher. -/
theorem c7_witness :
    get_root_file_path (fun _ => some ["M:", "RIP", "a\\b"]) "p" =
      (some "RIP", some (convert_windows_to_unix_path "a\\b")) ∧
    get_root_file_path (fun _ => some ["only-one-group"]) "p" = (none, none) :=
  ⟨c7_theorem.1 (fun _ => some ["M:", "RIP", "a\\b"]) "p" "M:" "RIP" "a\\b" rfl,
   c7_theorem.2.2.1 (fun _ => some ["only-one-group"]) "p" ["only-one-group"] rfl
     (by decide)⟩

/-- Counterexample to Claim C5: in the Jellyfin-to-Kodi direction a watched
item without a `unified_file` field raises `KeyError` (here on the first of
two items), aborting the whole reconcile pass instead of being skipped
non-fatally, so the remaining item is never processed. -/
theorem c5_counterexample :
    set_watch_from_jelly_to_kodi ⟨false⟩
      [⟨"NoKey", "jid", "uid", some 1, some 0, none⟩,
       ⟨"Good", "jid2", "uid2", some 1, some 0, some (some "g")⟩]
      [] = Except.error "KeyError: unified_file" := rfl

/-- Claim C5 as amended: only the Kodi-to-Jellyfin direction skips an item
with an absent unified key non-fatally (contributing nothing and letting the
fold continue over the remaining items); in the Jellyfin-to-Kodi direction
the direct subscript `item["unified_file"]` raises `KeyError`, which aborts
the pass. -/
theorem c5_theorem :
    (∀ (cfg : Config) (store : List JellyItem) (xs ys : List KodiItem) (bad : KodiItem),
      bad.unified_file = none →
      set_watch_from_kodi_to_jelly cfg (xs ++ bad :: ys) store =
        set_watch_from_kodi_to_jelly cfg (xs ++ ys) store) ∧
    (∀ (cfg : Config) (store : List KodiItem) (ys : List JellyItem) (bad : JellyItem),
      bad.unified_file = none →
      set_watch_from_jelly_to_kodi cfg (bad :: ys) store =
        Except.error "KeyError: unified_file") := by
  constructor
  · intro cfg store xs ys bad h
    unfold set_watch_from_kodi_to_jelly
    rw [List.foldl_append, List.foldl_append, List.foldl_cons]
    congr 1
    simp [kodiToJellyStep, h]
  · intro cfg store ys bad h
    unfold set_watch_from_jelly_to_kodi
    rw [List.foldlM_cons]
    have hstep : jellyToKodiStep cfg store (0, []) bad =
        Except.error "KeyError: unified_file" := by
      simp [jellyToKodiStep, h, expectField]
    rw [hstep]
    rfl

/-- Witness for C5 at concrete lists. -/
theorem c5_witness :
    set_watch_from_kodi_to_jelly ⟨false⟩
      ([⟨"A", some 1, some 0, some "a", some 1, none, none⟩] ++
        ⟨"B", some 1, some 0, none, some 2, none, none⟩ ::
          [⟨"C", some 1, some 0, some "c", some 3, none, none⟩]) [] =
      set_watch_from_kodi_to_jelly ⟨false⟩
        ([⟨"A", some 1, some 0, some "a", some 1, none, none⟩] ++
          [⟨"C", some 1, some 0, some "c", some 3, none, none⟩]) [] :=
  c5_theorem.1 ⟨false⟩ [] [⟨"A", some 1, some 0, some "a", some 1, none, none⟩]
    [⟨"C", some 1, some 0, some "c", some 3, none, none⟩]
    ⟨"B", some 1, some 0, none, some 2, none, none⟩ rfl

/-- Counterexample to Claim C6: with the dry-run flag enabled, the
Jellyfin-to-Kodi push on an out-of-sync pair (play counts 5 vs 1) still
issues the `SetMovieDetails` update call — `sync_watch_status_in_kodi_from_jelly`
never consults the flag. -/
theorem c6_counterexample :
    Config.dry_run ⟨true⟩ = true ∧
    sync_watch_status_in_kodi_from_jelly ⟨true⟩
      ⟨"Foo", "jid", "uid", some 5, some 0, some (some "f")⟩
      ⟨"Bar", some 1, some 0, some "f", some 7, none, none⟩ =
      Except.ok (KodiAction.setMovieDetails 7 5 0) := by
  refine ⟨rfl, ?_⟩
  norm_num [sync_watch_status_in_kodi_from_jelly, expectField, ticks_to_seconds]

/-- Claim C6 as amended: the dry-run flag suppresses the network update only
in the Kodi-to-Jellyfin direction, where the skip comparison is still
executed (the skip outcome does not depend on the flag) and a would-be push
becomes a log entry; the Jellyfin-to-Kodi direction ignores the flag
entirely, its outcome being identical for any two configurations. -/
theorem c6_theorem :
    (∀ (cfg : Config) (kodi : KodiItem) (jelly : JellyItem), cfg.dry_run = true →
      sync_watch_status_to_jelly_from_kodi cfg kodi jelly = JellyAction.skip ∨
      sync_watch_status_to_jelly_from_kodi cfg kodi jelly =
        JellyAction.dryRunLog jelly.Name) ∧
    (∀ (cfg cfg2 : Config) (kodi : KodiItem) (jelly : JellyItem),
      sync_watch_status_to_jelly_from_kodi cfg kodi jelly = JellyAction.skip ↔
        sync_watch_status_to_jelly_from_kodi cfg2 kodi jelly = JellyAction.skip) ∧
    (∀ (cfg cfg2 : Config) (jelly : JellyItem) (kodi : KodiItem),
      sync_watch_status_in_kodi_from_jelly cfg jelly kodi =
        sync_watch_status_in_kodi_from_jelly cfg2 jelly kodi) := by
  refine ⟨?_, ?_, fun cfg cfg2 jelly kodi => rfl⟩
  · intro cfg kodi jelly hdry
    unfold sync_watch_status_to_jelly_from_kodi
    by_cases hcond : kodi.playcount.getD 0 = jelly.PlayCount.getD 0 ∧
        |kodi.resume_position.getD 0 -
          ticks_to_seconds (jelly.PlaybackPositionTicks.getD 0)| < 2
    · left
      rw [if_pos hcond]
    · right
      rw [if_neg hcond, hdry]
      simp
  · intro cfg cfg2 kodi jelly
    unfold sync_watch_status_to_jelly_from_kodi
    by_cases hcond : kodi.playcount.getD 0 = jelly.PlayCount.getD 0 ∧
        |kodi.resume_position.getD 0 -
          ticks_to_seconds (jelly.PlaybackPositionTicks.getD 0)| < 2
    · rw [if_pos hcond, if_pos hcond]
    · rw [if_neg hcond, if_neg hcond]
      cases hc : cfg.dry_run <;> cases hc2 : cfg2.dry_run <;> simp

/-- Witness for C6 at a concrete dry-run configuration. -/
theorem c6_witness :
    sync_watch_status_to_jelly_from_kodi ⟨true⟩
        ⟨"KW", some 0, some 0, some "w", some 1, none, none⟩
        ⟨"JW", "wid", "wu", some 0, some 0, some (some "w")⟩ = JellyAction.skip ∨
    sync_watch_status_to_jelly_from_kodi ⟨true⟩
        ⟨"KW", some 0, some 0, some "w", some 1, none, none⟩
        ⟨"JW", "wid", "wu", some 0, some 0, some (some "w")⟩ =
      JellyAction.dryRunLog "JW" :=
  c6_theorem.1 ⟨true⟩ ⟨"KW", some 0, some 0, some "w", some 1, none, none⟩
    ⟨"JW", "wid", "wu", some 0, some 0, some (some "w")⟩ rfl

/-- Counterexample to Claim C2: a watched Jellyfin item whose unified key
matches two Kodi items is only counted — the run records zero push actions,
although the claim requires a push to each of the two matches. -/
theorem c2_counterexample :
    set_watch_from_jelly_to_kodi ⟨false⟩
      [⟨"Foo", "jid", "uid", some 1, some 0, some (some "f")⟩]
      [⟨"K1", some 0, some 0, some "f", some 1, none, none⟩,
       ⟨"K2", some 0, some 0, some "f", some 2, none, none⟩] = Except.ok (1, []) := rfl

/-- Claim C2 as amended: only the Kodi-to-Jellyfin direction broadcasts — it
pushes to every matching Jellyfin item and counts each; in the
Jellyfin-to-Kodi direction an ambiguous key (two or more Kodi matches) is
counted and logged but no update is applied to any match. -/
theorem c2_theorem :
    (∀ (cfg : Config) (store : List KodiItem) (acc : ℕ × List KodiAction)
        (item : JellyItem) (fl : Option String) (b1 b2 : KodiItem) (bs : List KodiItem),
      item.unified_file = some fl →
      store.filter (fun k => k.unified_file == fl) = b1 :: b2 :: bs →
      jellyToKodiStep cfg store acc item = Except.ok (acc.1 + 1, acc.2)) ∧
    (∀ (cfg : Config) (store : List JellyItem) (acc : ℕ × List JellyAction)
        (item : KodiItem) (fl : String),
      item.unified_file = some fl → fl ≠ "" →
      kodiToJellyStep cfg store acc item =
        (acc.1 + (store.filter (fun j => j.unified_file == some (some fl))).length,
         acc.2 ++ (store.filter (fun j => j.unified_file == some (some fl))).map
           (fun f => sync_watch_status_to_jelly_from_kodi cfg item f))) := by
  constructor
  · intro cfg store acc item fl b1 b2 bs hitem hfilter
    simp only [jellyToKodiStep, hitem, expectField, hfilter]
  · intro cfg store acc item fl hitem hne
    simp only [kodiToJellyStep, hitem]
    rw [if_neg hne]
    by_cases hempty :
        (store.filter (fun j => j.unified_file == some (some fl))).isEmpty = true
    · rw [if_pos hempty]
      rw [List.isEmpty_iff] at hempty
      rw [hempty]
      simp
    · rw [if_neg hempty]

/-- Witness for C2: the broadcasting direction applied at one concrete
match. -/
theorem c2_witness :
    kodiToJellyStep ⟨false⟩
        [⟨"N1", "i1", "u1", some 0, some 0, some (some "g")⟩] (0, [])
        ⟨"KT", some 1, some 0, some "g", some 3, none, none⟩ =
      (0 + (([⟨"N1", "i1", "u1", some 0, some 0, some (some "g")⟩] : List JellyItem).filter
          (fun j => j.unified_file == some (some "g"))).length,
       [] ++ (([⟨"N1", "i1", "u1", some 0, some 0, some (some "g")⟩] : List JellyItem).filter
          (fun j => j.unified_file == some (some "g"))).map
         (fun f => sync_watch_status_to_jelly_from_kodi ⟨false⟩
            ⟨"KT", some 1, some 0, some "g", some 3, none, none⟩ f)) :=
  c2_theorem.2 ⟨false⟩ [⟨"N1", "i1", "u1", some 0, some 0, some (some "g")⟩] (0, [])
    ⟨"KT", some 1, some 0, some "g", some 3, none, none⟩ "g" rfl (by decide)

/-- Counterexample to Claim C3: play counts are equal (1 = 1) and the
position difference is 1.5 seconds, i.e. below the claimed 2-second
threshold, yet the Jellyfin-to-Kodi push is NOT skipped: the code's
threshold in this direction is 1 second, so a `SetMovieDetails` update is
issued. -/
theorem c3_counterexample :
    sync_watch_status_in_kodi_from_jelly ⟨false⟩
      ⟨"Foo", "jid", "uid", some 1, some 0, some (some "f")⟩
      ⟨"Bar", some 1, some (3 / 2), some "f", some 7, none, none⟩ =
      Except.ok (KodiAction.setMovieDetails 7 1 0) ∧
    (1 : ℕ) = 1 ∧ |(3 / 2 : ℚ) - ticks_to_seconds 0| < 2 := by
  have tts0 : ticks_to_seconds 0 = 0 := by norm_num [ticks_to_seconds]
  have habs : ¬ |(3 / 2 : ℚ)| < 1 := by
    rw [abs_of_pos (show (0 : ℚ) < 3 / 2 by norm_num)]
    norm_num
  refine ⟨?_, rfl, ?_⟩
  · norm_num [sync_watch_status_in_kodi_from_jelly, expectField, tts0, habs]
  · rw [tts0, sub_zero, abs_of_pos (show (0 : ℚ) < 3 / 2 by norm_num)]
    norm_num

/-- Claim C3 as amended: with all watch-state fields present, the skip test
compares play counts for equality and the absolute position difference in
seconds, but the threshold is direction-dependent: strictly below 2 seconds
in the Kodi-to-Jellyfin direction and strictly below 1 second in the
Jellyfin-to-Kodi direction; when the test fails, the source item's play
count and position are pushed onto the target. -/
theorem c3_theorem :
    (∀ (cfg : Config) (kodi : KodiItem) (jelly : JellyItem) (kpc : ℕ) (kpos : ℚ)
        (jpc : ℕ) (jticks : ℤ),
      kodi.playcount = some kpc → kodi.resume_position = some kpos →
      jelly.PlayCount = some jpc → jelly.PlaybackPositionTicks = some jticks →
      (sync_watch_status_to_jelly_from_kodi cfg kodi jelly = JellyAction.skip ↔
          (kpc = jpc ∧ |kpos - ticks_to_seconds jticks| < 2)) ∧
        (cfg.dry_run = false → ¬(kpc = jpc ∧ |kpos - ticks_to_seconds jticks| < 2) →
          sync_watch_status_to_jelly_from_kodi cfg kodi jelly =
            JellyAction.update_playback_position jelly.UserId jelly.Id
              (seconds_to_ticks kpos) kpc)) ∧
    (∀ (cfg : Config) (jelly : JellyItem) (kodi : KodiItem) (jpc : ℕ) (jticks : ℤ)
        (kpc : ℕ) (kpos : ℚ) (m : ℕ),
      jelly.PlaybackPositionTicks = some jticks → jelly.PlayCount = some jpc →
      kodi.playcount = some kpc → kodi.resume_position = some kpos →
      (sync_watch_status_in_kodi_from_jelly cfg jelly kodi = Except.ok KodiAction.skip ↔
          (kpc = jpc ∧ |kpos - ticks_to_seconds jticks| < 1)) ∧
        (kodi.tvshowid = none → kodi.movieid = some m →
          ¬(kpc = jpc ∧ |kpos - ticks_to_seconds jticks| < 1) →
          sync_watch_status_in_kodi_from_jelly cfg jelly kodi =
            Except.ok (KodiAction.setMovieDetails m jpc (ticks_to_seconds jticks)))) := by
  constructor
  · intro cfg kodi jelly kpc kpos jpc jticks h1 h2 h3 h4
    unfold sync_watch_status_to_jelly_from_kodi
    rw [h1, h2, h3, h4]
    simp only [Option.getD_some]
    constructor
    · by_cases hcond : kpc = jpc ∧ |kpos - ticks_to_seconds jticks| < 2
      · rw [if_pos hcond]
        simp [hcond]
      · rw [if_neg hcond]
        cases hc : cfg.dry_run <;> simp [hcond]
    · intro hdry hcond
      rw [if_neg hcond, hdry]
      simp
  · intro cfg jelly kodi jpc jticks kpc kpos m h1 h2 h3 h4
    unfold sync_watch_status_in_kodi_from_jelly
    rw [h1, h2, h3]
    simp only [expectField]
    constructor
    · by_cases hpc : kpc = jpc
      · rw [if_pos hpc, h4]
        simp only [expectField]
        by_cases hlt : |kpos - ticks_to_seconds jticks| < 1
        · simp [hlt, hpc]
        · cases htv : kodi.tvshowid <;> cases hep : kodi.episodeid <;>
            cases hmv : kodi.movieid <;> simp [expectField, hlt, htv, hep, hmv]
      · rw [if_neg hpc]
        cases htv : kodi.tvshowid <;> cases hep : kodi.episodeid <;>
          cases hmv : kodi.movieid <;> simp [expectField, hpc, htv, hep, hmv]
    · intro htv hmv hcond
      rw [htv, hmv]
      by_cases hpc : kpc = jpc
      · rw [if_pos hpc, h4]
        have hlt : ¬ |kpos - ticks_to_seconds jticks| < 1 := fun hl => hcond ⟨hpc, hl⟩
        simp [expectField, hlt]
      · rw [if_neg hpc]
        simp [expectField]

/-- Witness for C3 at the spec's concrete skip-test example: play counts
2 = 2 and positions 2659 s vs 26586460287 ticks differ by about 0.354 s, so
the Kodi-to-Jellyfin direction skips. -/
theorem c3_witness :
    sync_watch_status_to_jelly_from_kodi ⟨false⟩
      ⟨"CRA", some 2, some 2659, some "w", some 4, none, none⟩
      ⟨"CRAJ", "cid", "cu", some 2, some 26586460287, some (some "w")⟩ =
      JellyAction.skip := by
  have h := (c3_theorem.1 ⟨false⟩
    ⟨"CRA", some 2, some 2659, some "w", some 4, none, none⟩
    ⟨"CRAJ", "cid", "cu", some 2, some 26586460287, some (some "w")⟩
    2 2659 2 26586460287 rfl rfl rfl rfl).1
  refine h.mpr ⟨rfl, ?_⟩
  rw [ticks_to_seconds, abs_lt]
  constructor <;> norm_num

/-- Counterexample to Claim C1: a stored document with an extra field
`Extra` that is absent from the newly fetched record keeps that field after
the upsert — the stored record is the `$set` merge, not the fetched record,
so the stale field does not disappear. -/
theorem c1_counterexample :
    jelly_sync_db [⟨"1", "u", [("Extra", "x")]⟩] [⟨"1", "u", []⟩]
        [jellyConcatKey ⟨"1", "u", []⟩] = [⟨"1", "u", [("Extra", "x")]⟩] ∧
    (⟨"1", "u", [("Extra", "x")]⟩ : JItem) ≠ ⟨"1", "u", []⟩ := by decide

/-- Lookup after setting the same field returns the new value. -/
theorem getField_setField_self (d : List DocField) (k v : String) :
    getField (setField d k v) k = some v := by
  induction d with
  | nil => simp [setField, getField]
  | cons p ps ih =>
    by_cases h : p.1 = k
    · simp [setField, h, getField]
    · simp [setField, h, getField, ih]

/-- Lookup of a different field is unchanged by `setField`. -/
theorem getField_setField_ne (d : List DocField) (k v f : String) (h : f ≠ k) :
    getField (setField d k v) f = getField d f := by
  induction d with
  | nil => simp [setField, getField, Ne.symm h]
  | cons p ps ih =>
    by_cases hp : p.1 = k
    · simp [setField, hp, getField, Ne.symm h]
    · simp [setField, hp, getField, ih]

/-- `$set` of fields none of which is `f` does not change the lookup of
`f`. -/
theorem getField_setAll_not_mem (stored new : List DocField) (f : String)
    (h : ∀ p ∈ new, p.1 ≠ f) : getField (setAll stored new) f = getField stored f := by
  induction new generalizing stored with
  | nil => rfl
  | cons p ps ih =>
    have hp : p.1 ≠ f := h p (List.mem_cons_self p ps)
    have hps : ∀ q ∈ ps, q.1 ≠ f := fun q hq => h q (List.mem_cons_of_mem p hq)
    calc getField (setAll stored (p :: ps)) f
        = getField (setAll (setField stored p.1 p.2) ps) f := rfl
      _ = getField (setField stored p.1 p.2) f := ih _ hps
      _ = getField stored f := getField_setField_ne _ _ _ _ (Ne.symm hp)

/-- A field that looks up to `none` occurs nowhere in the document. -/
theorem getField_none_forall (d : List DocField) (f : String) (h : getField d f = none) :
    ∀ p ∈ d, p.1 ≠ f := by
  induction d with
  | nil => intro p hp; cases hp
  | cons q qs ih =>
    intro p hp
    simp only [getField] at h
    by_cases hq : q.1 = f
    · rw [if_pos hq] at h
      cases h
    · rw [if_neg hq] at h
      rcases List.mem_cons.mp hp with h1 | h1
      · rw [h1]; exact hq
      · exact ih h p h1

/-- `$set` writes every field of `new` (assuming `new` has no duplicate
field names, as a Python dict cannot): lookups present in `new` read back
the new value after the merge. -/
theorem getField_setAll_of_getField (stored new : List DocField) (f v : String)
    (hnd : (new.map Prod.fst).Nodup) (h : getField new f = some v) :
    getField (setAll stored new) f = some v := by
  induction new generalizing stored with
  | nil => simp [getField] at h
  | cons p ps ih =>
    have hnd2 : (ps.map Prod.fst).Nodup := (List.nodup_cons.mp (by simpa using hnd)).2
    have hnotin : p.1 ∉ ps.map Prod.fst := (List.nodup_cons.mp (by simpa using hnd)).1
    by_cases hp : p.1 = f
    · simp only [getField, if_pos hp] at h
      have hforall : ∀ q ∈ ps, q.1 ≠ f := by
        intro q hq hqf
        apply hnotin
        have hmem : q.1 ∈ ps.map Prod.fst := List.mem_map_of_mem Prod.fst hq
        rwa [hqf, ← hp] at hmem
      calc getField (setAll stored (p :: ps)) f
          = getField (setAll (setField stored p.1 p.2) ps) f := rfl
        _ = getField (setField stored p.1 p.2) f := getField_setAll_not_mem _ _ _ hforall
        _ = some v := by rw [hp, getField_setField_self, h]
    · simp only [getField, if_neg hp] at h
      calc getField (setAll stored (p :: ps)) f
          = getField (setAll (setField stored p.1 p.2) ps) f := rfl
        _ = some v := ih _ hnd2 h

/-- Claim C1 as amended: the upsert is a field-level `$set` merge, not a
full replacement.  The key fields are taken from the fetched record and
every field of the fetched record is written with its fetched value
(last-fetch wins per field), but a field present only in the previously
stored record is RETAINED by the merge rather than dropped. -/
theorem c1_theorem :
    (∀ stored new : JItem,
      (mergeSet stored new).Id = new.Id ∧ (mergeSet stored new).UserId = new.UserId) ∧
    (∀ stored new : JItem, ∀ f v : String,
      (new.rest.map Prod.fst).Nodup → getField new.rest f = some v →
      getField (mergeSet stored new).rest f = some v) ∧
    (∀ stored new : JItem, ∀ f : String,
      getField new.rest f = none →
      getField (mergeSet stored new).rest f = getField stored.rest f) := by
  refine ⟨fun stored new => ⟨rfl, rfl⟩, ?_, ?_⟩
  · intro stored new f v hnd h
    exact getField_setAll_of_getField stored.rest new.rest f v hnd h
  · intro stored new f h
    exact getField_setAll_not_mem stored.rest new.rest f (getField_none_forall _ _ h)

/-- Witness for C1 at a concrete stored/fetched pair: the fetched field `A`
is written, the stale field `Extra` is retained. -/
theorem c1_witness :
    getField (mergeSet ⟨"1", "u", [("Extra", "x")]⟩ ⟨"1", "u", [("A", "1")]⟩).rest "A" =
      some "1" ∧
    getField (mergeSet ⟨"1", "u", [("Extra", "x")]⟩ ⟨"1", "u", [("A", "1")]⟩).rest "Extra" =
      getField [("Extra", "x")] "Extra" :=
  ⟨c1_theorem.2.1 ⟨"1", "u", [("Extra", "x")]⟩ ⟨"1", "u", [("A", "1")]⟩ "A" "1"
      (by decide) (by decide),
   c1_theorem.2.2 ⟨"1", "u", [("Extra", "x")]⟩ ⟨"1", "u", [("A", "1")]⟩ "Extra" (by decide)⟩

/-- Counterexample to Claim C4: the delete step tests stale stored documents
by membership of the concatenated string `f"{UserId}_{Id}"`.  The stored key
`(UserId, Id) = ("a", "b_c")` and the fetched key `("a_b", "c")` concatenate
to the same string `"a_b_c"`, so the stale document survives the pass: its
key remains in the store although it is not a key of the fetch result. -/
theorem c4_counterexample :
    dkey ⟨"b_c", "a", []⟩ ∈ (jelly_sync_db [⟨"b_c", "a", []⟩] [⟨"c", "a_b", []⟩]
        [jellyConcatKey ⟨"c", "a_b", []⟩]).map dkey ∧
    dkey ⟨"b_c", "a", []⟩ ∉ ([⟨"c", "a_b", []⟩] : List JItem).map dkey := by decide

section StoreLemmas

variable {α : Type} {κ : Type} {σ : Type} [DecidableEq κ] [DecidableEq σ]
variable (key : α → κ) (merge : α → α → α) (skey : α → σ)

/-- Every document after a single upsert is either an old document or has
the upserted key. -/
theorem mem_upsertFirst (hmerge : ∀ d i, key (merge d i) = key i)
    (store : List α) (i : α) :
    ∀ e ∈ upsertFirst key merge store i, e ∈ store ∨ key e = key i := by
  induction store with
  | nil =>
    intro e he
    simp only [upsertFirst, List.mem_singleton] at he
    right
    rw [he]
  | cons d ds ih =>
    intro e he
    simp only [upsertFirst] at he
    by_cases hk : key d = key i
    · rw [if_pos hk] at he
      rcases List.mem_cons.mp he with h | h
      · right
        rw [h, hmerge]
      · left
        exact List.mem_cons_of_mem d h
    · rw [if_neg hk] at he
      rcases List.mem_cons.mp he with h | h
      · left
        rw [h]
        exact List.mem_cons_self d ds
      · rcases ih e h with h2 | h2
        · left
          exact List.mem_cons_of_mem d h2
        · right
          exact h2

/-- Every document after the bulk upsert is either an old document or has
the key of some fetched item. -/
theorem mem_bulk_upsert (hmerge : ∀ d i, key (merge d i) = key i)
    (store items : List α) :
    ∀ e ∈ bulk_upsert key merge store items,
      e ∈ store ∨ ∃ i ∈ items, key e = key i := by
  induction items generalizing store with
  | nil =>
    intro e he
    left
    exact he
  | cons i is ih =>
    intro e he
    rcases ih (upsertFirst key merge store i) e he with h | ⟨j, hj, hkey⟩
    · rcases mem_upsertFirst key merge hmerge store i e h with h2 | h2
      · left
        exact h2
      · right
        exact ⟨i, List.mem_cons_self i is, h2⟩
    · right
      exact ⟨j, List.mem_cons_of_mem i hj, hkey⟩

/-- After a single upsert of `i`, a document with `i`'s key is present. -/
theorem key_mem_upsertFirst (hmerge : ∀ d i, key (merge d i) = key i)
    (store : List α) (i : α) :
    key i ∈ (upsertFirst key merge store i).map key := by
  induction store with
  | nil => simp [upsertFirst]
  | cons d ds ih =>
    by_cases hk : key d = key i
    · simp only [upsertFirst, if_pos hk, List.map_cons]
      rw [hmerge]
      exact List.mem_cons_self _ _
    · simp only [upsertFirst, if_neg hk, List.map_cons]
      exact List.mem_cons_of_mem _ ih

/-- A single upsert never removes a key from the store. -/
theorem keys_preserved_upsertFirst (hmerge : ∀ d i, key (merge d i) = key i)
    (store : List α) (i : α) (k : κ) (hk : k ∈ store.map key) :
    k ∈ (upsertFirst key merge store i).map key := by
  induction store with
  | nil => cases hk
  | cons d ds ih =>
    rw [List.map_cons] at hk
    rcases List.mem_cons.mp hk with h | h
    · by_cases hkd : key d = key i
      · simp only [upsertFirst, if_pos hkd, List.map_cons]
        rw [hmerge, h, hkd]
        exact List.mem_cons_self _ _
      · simp only [upsertFirst, if_neg hkd, List.map_cons]
        rw [h]
        exact List.mem_cons_self _ _
    · by_cases hkd : key d = key i
      · simp only [upsertFirst, if_pos hkd, List.map_cons]
        exact List.mem_cons_of_mem _ h
      · simp only [upsertFirst, if_neg hkd, List.map_cons]
        exact List.mem_cons_of_mem _ (ih h)

/-- The bulk upsert never removes a key from the store. -/
theorem keys_preserved_bulk (hmerge : ∀ d i, key (merge d i) = key i)
    (store items : List α) (k : κ) (hk : k ∈ store.map key) :
    k ∈ (bulk_upsert key merge store items).map key := by
  induction items generalizing store with
  | nil => exact hk
  | cons i is ih =>
    exact ih _ (keys_preserved_upsertFirst key merge hmerge store i k hk)

/-- After the bulk upsert, every fetched item's key is present. -/
theorem key_mem_bulk (hmerge : ∀ d i, key (merge d i) = key i)
    (store items : List α) (i : α) :
    i ∈ items → key i ∈ (bulk_upsert key merge store items).map key := by
  induction items generalizing store with
  | nil =>
    intro h
    cases h
  | cons j js ih =>
    intro hi
    rcases List.mem_cons.mp hi with h | h
    · rw [h]
      exact keys_preserved_bulk key merge hmerge _ js (key j)
        (key_mem_upsertFirst key merge hmerge store j)
    · exact ih _ h

/-- The key-set exactness of `sync_db`: provided the string keys of stored
documents collide with string keys of fetched items only when the underlying
upsert keys agree, the key set after the pass equals exactly the fetched key
set. -/
theorem sync_db_model_exact (hmerge : ∀ d i, key (merge d i) = key i)
    (hcong : ∀ d i : α, key d = key i → skey d = skey i)
    (store items : List α)
    (hinj : ∀ d ∈ store, ∀ i ∈ items, skey d = skey i → key d = key i) :
    ∀ k, k ∈ (sync_db_model key merge skey store items (items.map skey)).map key ↔
      k ∈ items.map key := by
  intro k
  constructor
  · intro hk
    rcases List.mem_map.mp hk with ⟨e, he, hek⟩
    rw [sync_db_model, List.mem_filter] at he
    obtain ⟨hebulk, heids⟩ := he
    have hskey : skey e ∈ items.map skey := by
      simpa using heids
    rcases mem_bulk_upsert key merge hmerge store items e hebulk with hstore | ⟨i, hi, hkey⟩
    · rcases List.mem_map.mp hskey with ⟨i, hi, hsk⟩
      have hkk : key e = key i := hinj e hstore i hi hsk.symm
      exact List.mem_map.mpr ⟨i, hi, by rw [← hek, hkk]⟩
    · exact List.mem_map.mpr ⟨i, hi, by rw [← hek, hkey]⟩
  · intro hk
    rcases List.mem_map.mp hk with ⟨i, hi, hik⟩
    have hbulk := key_mem_bulk key merge hmerge store items i hi
    rcases List.mem_map.mp hbulk with ⟨e, he, hek⟩
    refine List.mem_map.mpr ⟨e, ?_, by rw [hek, hik]⟩
    rw [sync_db_model, List.mem_filter]
    refine ⟨he, ?_⟩
    have hse : skey e = skey i := hcong e i hek
    rw [hse]
    exact List.elem_eq_true_of_mem (List.mem_map_of_mem skey hi)

end StoreLemmas

/-- Claim C4 as amended: after a mirror pass the store's key set equals
exactly the fetched key set, PROVIDED (for the Jellyfin mirror) that the
concatenated string keys `f"{UserId}_{Id}"` used by the delete step do not
collide across distinct `(UserId, Id)` pairs of the prior store and the
fetch (true whenever ids contain no underscore); the Kodi mirror, whose
delete step uses the `uniqueid` key itself, satisfies exactness
unconditionally. -/
theorem c4_theorem :
    (∀ store items : List JItem,
      (∀ d ∈ store, ∀ i ∈ items, jellyConcatKey d = jellyConcatKey i → dkey d = dkey i) →
      ∀ k, k ∈ (jelly_sync_db store items (items.map jellyConcatKey)).map dkey ↔
        k ∈ items.map dkey) ∧
    (∀ store items : List KItem,
      ∀ k, k ∈ (kodi_sync_db store items (items.map KItem.uniqueid)).map KItem.uniqueid ↔
        k ∈ items.map KItem.uniqueid) := by
  constructor
  · intro store items hinj
    exact sync_db_model_exact dkey mergeSet jellyConcatKey (fun d i => rfl)
      (fun d i h => by
        have h1 : d.UserId = i.UserId := congrArg Prod.fst h
        have h2 : d.Id = i.Id := congrArg Prod.snd h
        rw [jellyConcatKey, jellyConcatKey, h1, h2])
      store items hinj
  · intro store items
    exact sync_db_model_exact KItem.uniqueid kodiMergeSet KItem.uniqueid
      (fun d i => rfl) (fun d i h => h) store items (fun d _ i _ h => h)

/-- Witness for C4 at a concrete store and fetch. -/
theorem c4_witness :
    (("u", "1") ∈ (jelly_sync_db [] [⟨"1", "u", []⟩]
        (([⟨"1", "u", []⟩] : List JItem).map jellyConcatKey)).map dkey ↔
      ("u", "1") ∈ ([⟨"1", "u", []⟩] : List JItem).map dkey) ∧
    ((7 : ℕ) ∈ (kodi_sync_db [⟨3, []⟩] [⟨7, []⟩]
        (([⟨7, []⟩] : List KItem).map KItem.uniqueid)).map KItem.uniqueid ↔
      (7 : ℕ) ∈ ([⟨7, []⟩] : List KItem).map KItem.uniqueid) :=
  ⟨c4_theorem.1 [] [⟨"1", "u", []⟩]
      (fun d hd => absurd hd (List.not_mem_nil d)) ("u", "1"),
   c4_theorem.2 [⟨3, []⟩] [⟨7, []⟩] 7⟩
